import Mathlib

/-!
# FitAgent capture-and-submit flow: shallow embedding and verification

A shallow embedding of the client-side capture-and-submit flow of the
FitAgent repository, together with the stateless API route handlers and
the mock client-state hook.  Each definition is translated from the
TypeScript source:

* `CameraCapture` component (camera capture, file upload, image removal,
  session completion, error handling);
* `ManualNutritionEntry` component (form state, validation, submission);
* `useFitAgent` hook (`analyzePhoto`, `getAICoaching`, `completeGoal`,
  vitality points, mock user);
* `app/api/webhook/route.ts` and the frame route (health-check `GET`
  handlers).

Browser-supplied nondeterminism (timestamps from `Date.now()`, object
URLs from `URL.createObjectURL`, identifiers involving `Math.random()`,
the result of `canvas.toBlob`) is passed in as explicit parameters, so
every operation is a pure function of its state and those oracles.
Numbers held in TypeScript `number` fields are modelled as rationals.
-/

/-! ## Basic browser values -/

/-- A binary blob, as produced by `canvas.toBlob`. -/
structure Blob where
  data : List Nat
deriving DecidableEq, Repr

/-- A `File` value: name, MIME type (the JS `file.type`) and contents. -/
structure BrowserFile where
  name : String
  mimeType : String
  data : List Nat
deriving DecidableEq, Repr

/-- A `MediaStream` as returned by `getUserMedia`; its tracks are
identified by numeric ids, `track.stop()` is recorded in an event log. -/
structure MediaStream where
  tracks : List Nat
deriving DecidableEq, Repr

/-- The semantic tag of a captured image:
`'food' | 'nutrition-label' | 'beverage'`. -/
inductive ImageType where
  | food
  | nutritionLabel
  | beverage
deriving DecidableEq, Repr

/-! ## CameraCapture component state -/

/-- The `CapturedImage` record of `CameraCapture.tsx`. -/
structure CapturedImage where
  id : String
  file : BrowserFile
  url : String
  type : ImageType
  processing : Bool
deriving DecidableEq, Repr

/-- One file chosen in the file picker, together with the browser-supplied
fresh id (`Date.now().toString() + Math.random()`) and the object URL that
`URL.createObjectURL` would return for it. -/
structure UploadEntry where
  file : BrowserFile
  id : String
  url : String
deriving DecidableEq, Repr

/-- The state of one `CameraCapture` session: the React `useState` fields,
the file input's value, and event logs recording resource release
(`URL.revokeObjectURL`, `track.stop()`). -/
structure CaptureState where
  stream : Option MediaStream
  capturedImages : List CapturedImage
  isCapturing : Bool
  error : Option String
  selectedType : ImageType
  showTypeSelector : Bool
  fileInputValue : String
  revokedUrls : List String
  stoppedTrackIds : List Nat
deriving DecidableEq, Repr

/-- The initial state on mount. -/
def initialCaptureState : CaptureState :=
  { stream := none
  , capturedImages := []
  , isCapturing := false
  , error := none
  , selectedType := ImageType.food
  , showTypeSelector := false
  , fileInputValue := ""
  , revokedUrls := []
  , stoppedTrackIds := [] }

/-- The error message set by `initCamera` when `getUserMedia` rejects. -/
def cameraErrorMsg : String :=
  "Camera access denied. Please allow camera permissions or use file upload."

/-- `initCamera`, success branch: `setStream(mediaStream)`. -/
def initCameraSuccess (mediaStream : MediaStream) (st : CaptureState) :
    CaptureState :=
  { st with stream := some mediaStream }

/-- `initCamera`, catch branch: `setError('Camera access denied. ...')`.
The component has no code path that clears this error or calls
`getUserMedia` again (the effect has an empty dependency array). -/
def initCameraFail (st : CaptureState) : CaptureState :=
  { st with error := some cameraErrorMsg }

/-- The file name `meal-${timestamp}.jpg` given to a captured frame. -/
def capturedFileName (timestamp : Nat) : String :=
  "meal-" ++ toString timestamp ++ ".jpg"

/-- `capturePhoto`: snapshots the current video frame.  `canvas.toBlob`
may yield `null` (`blobResult = none`), in which case nothing is
appended; on success a fresh `CapturedImage` tagged with the currently
selected type is appended to `capturedImages`.  `timestamp` is the value
of `Date.now()` and `url` the object URL created for the blob. -/
def capturePhoto (blobResult : Option Blob) (timestamp : Nat)
    (url : String) (st : CaptureState) : CaptureState :=
  match blobResult with
  | some blob =>
    let file : BrowserFile :=
      { name := capturedFileName timestamp
      , mimeType := "image/jpeg"
      , data := blob.data }
    let newImage : CapturedImage :=
      { id := toString timestamp
      , file := file
      , url := url
      , type := st.selectedType
      , processing := false }
    { st with
        capturedImages := st.capturedImages ++ [newImage]
      , showTypeSelector := false
      , isCapturing := false }
  | none => { st with isCapturing := false }

/-- Whether a file passes the `file.type.startsWith('image/')` check
(written as a character-list prefix test so that it evaluates inside the
kernel). -/
def isImageFile (f : BrowserFile) : Bool :=
  "image/".data.isPrefixOf f.mimeType.data

/-- `handleFileUpload`: appends, in selection order, one image per chosen
file whose MIME type starts with `image/`; other files are ignored.  Each
appended image is tagged with the currently selected type, and the file
input's value is reset to the empty string. -/
def handleFileUpload (entries : List UploadEntry) (st : CaptureState) :
    CaptureState :=
  { st with
      capturedImages := st.capturedImages ++
        (entries.filter (fun e => isImageFile e.file)).map
          (fun e =>
            { id := e.id
            , file := e.file
            , url := e.url
            , type := st.selectedType
            , processing := false })
    , fileInputValue := "" }

/-- `removeImage(id)`: keeps the images whose id differs from `id`, and
revokes the object URL of the first image found with that id. -/
def removeImage (id : String) (st : CaptureState) : CaptureState :=
  let updated := st.capturedImages.filter (fun img => img.id != id)
  let imageToRemove := st.capturedImages.find? (fun img => img.id == id)
  { st with
      capturedImages := updated
    , revokedUrls :=
        match imageToRemove with
        | some img => st.revokedUrls ++ [img.url]
        | none => st.revokedUrls }

/-- `handleComplete`: passes the captured files, in order, to
`onPhotosCapture` (the first component of the result) and revokes each
image's object URL.  It does not stop the media stream's tracks and does
not clear the image list. -/
def handleComplete (st : CaptureState) : List BrowserFile × CaptureState :=
  ( st.capturedImages.map (fun img => img.file)
  , { st with
        revokedUrls := st.revokedUrls ++
          st.capturedImages.map (fun img => img.url) } )

/-- The cleanup function returned by the mount effect, applied to the
`stream` value it closed over: `if (stream) stream.getTracks().forEach(track => track.stop())`. -/
def effectCleanup (capturedStream : Option MediaStream)
    (st : CaptureState) : CaptureState :=
  match capturedStream with
  | some s => { st with stoppedTrackIds := st.stoppedTrackIds ++ s.tracks }
  | none => st

/-- Session teardown (unmount).  The effect runs once, on mount, with an
empty dependency array, so the cleanup closure captures the `stream`
state variable of the first render — which is `null`: later
`setStream(mediaStream)` calls do not re-create the closure.  The cleanup
therefore always sees `none`. -/
def sessionTeardown (st : CaptureState) : CaptureState :=
  effectCleanup none st

/-- The user-initiated operations the mounted component exposes. -/
inductive CaptureOp where
  | capture (blobResult : Option Blob) (timestamp : Nat) (url : String)
  | upload (entries : List UploadEntry)
  | remove (id : String)
  | selectType (t : ImageType)
  | toggleTypeSelector
  | complete
deriving DecidableEq, Repr

/-- One step of the component under a user-initiated operation. -/
def stepOp (op : CaptureOp) (st : CaptureState) : CaptureState :=
  match op with
  | CaptureOp.capture blobResult ts url => capturePhoto blobResult ts url st
  | CaptureOp.upload entries => handleFileUpload entries st
  | CaptureOp.remove id => removeImage id st
  | CaptureOp.selectType t => { st with selectedType := t }
  | CaptureOp.toggleTypeSelector =>
      { st with showTypeSelector := !st.showTypeSelector }
  | CaptureOp.complete => (handleComplete st).2

/-- Runs a sequence of user-initiated operations. -/
def applyOps (ops : List CaptureOp) (st : CaptureState) : CaptureState :=
  ops.foldl (fun s op => stepOp op s) st

/-! ## ManualNutritionEntry component -/

/-- The `ManualNutritionData` record: food name, serving size, the four
macro quantities, and a confidence score. -/
structure ManualNutritionData where
  foodName : String
  servingSize : String
  calories : ℚ
  protein : ℚ
  carbs : ℚ
  fats : ℚ
  confidence : ℚ
deriving DecidableEq, Repr

/-- The optional `initialData` prop (`Partial<ManualNutritionData>`). -/
structure PartialManualNutritionData where
  foodName : Option String
  servingSize : Option String
  calories : Option ℚ
  protein : Option ℚ
  carbs : Option ℚ
  fats : Option ℚ
  confidence : Option ℚ
deriving DecidableEq, Repr

/-- The `initialData` prop left entirely unset. -/
def emptyInitialData : PartialManualNutritionData :=
  { foodName := none, servingSize := none, calories := none
  , protein := none, carbs := none, fats := none, confidence := none }

/-- The initial `formData` state: `initialData?.field || default` for each
field (for strings `'' || ''` and for numbers `0 || 0` coincide with the
plain default, so `Option.getD` models the JS `||` here), and
`confidence: 1.0` — the initial data's confidence, if any, is ignored. -/
def initialFormData (initialData : PartialManualNutritionData) :
    ManualNutritionData :=
  { foodName := initialData.foodName.getD ""
  , servingSize := initialData.servingSize.getD ""
  , calories := initialData.calories.getD 0
  , protein := initialData.protein.getD 0
  , carbs := initialData.carbs.getD 0
  , fats := initialData.fats.getD 0
  , confidence := 1 }

/-- The JS `String.prototype.trim`: strips leading and trailing
whitespace (written with structural recursion on the character list so
that it evaluates inside the kernel). -/
def jsTrim (s : String) : String :=
  String.mk
    (((s.data.dropWhile Char.isWhitespace).reverse.dropWhile
        Char.isWhitespace).reverse)

/-- `validateForm`, as the association list of field-level errors it
builds: a required-field check on the trimmed food name and serving size,
and non-negativity checks on `protein` and `calories` only — `carbs` and
`fats` are not checked. -/
def validateForm (formData : ManualNutritionData) : List (String × String) :=
  (if jsTrim formData.foodName = "" then
    [("foodName", "Food name is required")] else []) ++
  (if jsTrim formData.servingSize = "" then
    [("servingSize", "Serving size is required")] else []) ++
  (if formData.protein < 0 then
    [("protein", "Protein cannot be negative")] else []) ++
  (if formData.calories < 0 then
    [("calories", "Calories cannot be negative")] else [])

/-- `Object.keys(newErrors).length === 0`: the form passes validation. -/
def validateFormOk (formData : ManualNutritionData) : Bool :=
  (validateForm formData).isEmpty

/-- `handleSubmit`: invokes `onSubmit(formData)` exactly when
`validateForm()` succeeds; `some` carries the submitted payload. -/
def handleSubmit (formData : ManualNutritionData) :
    Option ManualNutritionData :=
  if validateFormOk formData then some formData else none

/-- The edits the rendered form can perform: each input's `onChange`
calls `handleInputChange` with its own field (the numeric inputs parse
their text with `parseInt`/`parseFloat`, defaulting to `0`; the parsed
number arrives here).  No input is wired to the `confidence` field. -/
inductive FormEdit where
  | setFoodName (s : String)
  | setServingSize (s : String)
  | setCalories (n : ℚ)
  | setProtein (q : ℚ)
  | setCarbs (q : ℚ)
  | setFats (q : ℚ)
deriving DecidableEq, Repr

/-- `handleInputChange` restricted to the fields the form's inputs use:
a spread update of the single named field. -/
def applyEdit (e : FormEdit) (fd : ManualNutritionData) :
    ManualNutritionData :=
  match e with
  | FormEdit.setFoodName s => { fd with foodName := s }
  | FormEdit.setServingSize s => { fd with servingSize := s }
  | FormEdit.setCalories n => { fd with calories := n }
  | FormEdit.setProtein q => { fd with protein := q }
  | FormEdit.setCarbs q => { fd with carbs := q }
  | FormEdit.setFats q => { fd with fats := q }

/-- The form state after a sequence of edits from the initial data. -/
def formAfterEdits (initialData : PartialManualNutritionData)
    (edits : List FormEdit) : ManualNutritionData :=
  edits.foldl (fun fd e => applyEdit e fd) (initialFormData initialData)

/-! ## useFitAgent hook: data model -/

/-- The `macros` record of `NutritionData`. -/
structure Macros where
  protein : ℚ
  carbs : ℚ
  fats : ℚ
  fiber : ℚ
deriving DecidableEq, Repr

/-- The `micros` record: vitamin and mineral tables. -/
structure Micros where
  vitamins : List (String × ℚ)
  minerals : List (String × ℚ)
deriving DecidableEq, Repr

/-- One recognised food item. -/
structure FoodItem where
  name : String
  quantity : ℚ
  unit : String
  calories : ℚ
  protein : ℚ
  carbs : ℚ
  fats : ℚ
  confidence : ℚ
deriving DecidableEq, Repr

/-- The `NutritionData` record. -/
structure NutritionData where
  foodItems : List FoodItem
  totalCalories : ℚ
  macros : Macros
  micros : Micros
  confidence : ℚ
deriving DecidableEq, Repr

/-- The `NutritionGoals` record of a user. -/
structure NutritionGoals where
  dailyProtein : ℚ
  dailyCalories : ℚ
  dailyCarbs : ℚ
  dailyFats : ℚ
deriving DecidableEq, Repr

/-- A preferred meal time window (`end` is a reserved word in Lean, so
the closing time is named `endTime`). -/
structure MealTime where
  start : String
  endTime : String
  label : String
deriving DecidableEq, Repr

/-- The user's preferences record. -/
structure UserPreferences where
  dietaryRestrictions : List String
  allergies : List String
  fitnessGoals : List String
  preferredMealTimes : List MealTime
deriving DecidableEq, Repr

/-- The `User` record (creation date modelled as a numeric timestamp). -/
structure User where
  id : String
  email : String
  walletAddress : String
  createdAt : Nat
  preferences : UserPreferences
  goals : NutritionGoals
  nftTokenId : Option Nat
  currentLevel : Nat
deriving DecidableEq, Repr

/-- The `VitalityPoints` record. -/
structure VitalityPoints where
  total : ℚ
  earned : ℚ
  pending : ℚ
  streakMultiplier : ℚ
deriving DecidableEq, Repr

/-- The initial vitality-points state of the hook. -/
def initialVitalityPoints : VitalityPoints :=
  { total := 0, earned := 0, pending := 0, streakMultiplier := 1 }

/-- The mock user built by `loadUserProfile` (`walletAddress.slice(-8)`
is the last eight characters; `createdAt` is the load time). -/
def mockUser (walletAddress : String) (now : Nat) : User :=
  { id := "user_" ++ walletAddress.drop (walletAddress.length - 8)
  , email := ""
  , walletAddress := walletAddress
  , createdAt := now
  , preferences :=
      { dietaryRestrictions := []
      , allergies := []
      , fitnessGoals := ["protein_tracking"]
      , preferredMealTimes :=
          [ { start := "07:00", endTime := "09:00", label := "breakfast" }
          , { start := "12:00", endTime := "14:00", label := "lunch" }
          , { start := "18:00", endTime := "20:00", label := "dinner" } ] }
  , goals :=
      { dailyProtein := 150
      , dailyCalories := 2000
      , dailyCarbs := 200
      , dailyFats := 70 }
  , nftTokenId := none
  , currentLevel := 1 }

/-! ## useFitAgent hook: mock operations -/

/-- The hardcoded `NutritionData` that `analyzePhoto` resolves to. -/
def mockNutritionData : NutritionData :=
  { foodItems :=
      [ { name := "Grilled Chicken Breast"
        , quantity := 150
        , unit := "grams"
        , calories := 231
        , protein := 43.5
        , carbs := 0
        , fats := 5
        , confidence := 0.95 } ]
  , totalCalories := 231
  , macros := { protein := 43.5, carbs := 0, fats := 5, fiber := 0 }
  , micros :=
      { vitamins := [("B6", 0.9), ("B12", 0.3)]
      , minerals := [("Iron", 1.0), ("Zinc", 1.8)] }
  , confidence := 0.95 }

/-- `analyzePhoto`: ignores its `_imageFile` argument and resolves to the
hardcoded mock payload. -/
def analyzePhoto (_imageFile : BrowserFile) : NutritionData :=
  mockNutritionData

/-- One goal-progress entry of a coaching response. -/
structure GoalProgressEntry where
  current : ℚ
  target : ℚ
  percentage : ℚ
deriving DecidableEq, Repr

/-- The `goalProgress` record of a coaching response. -/
structure GoalProgress where
  protein : GoalProgressEntry
  calories : GoalProgressEntry
deriving DecidableEq, Repr

/-- The `CoachingResponse` record. -/
structure CoachingResponse where
  message : String
  suggestions : List String
  goalProgress : GoalProgress
  encouragement : String
deriving DecidableEq, Repr

/-- The JS `x || d` on numbers: `0` is falsy, so a zero value is replaced
by the default. -/
def jsOr (x d : ℚ) : ℚ :=
  if x = 0 then d else x

/-- `user?.goals.dailyProtein || 150`: `undefined || 150 = 150` when no
user is loaded, and a zero stored target is also replaced (JS falsy). -/
def proteinTargetOf (user : Option User) : ℚ :=
  match user with
  | none => 150
  | some u => jsOr u.goals.dailyProtein 150

/-- `user?.goals.dailyCalories || 2000`. -/
def caloriesTargetOf (user : Option User) : ℚ :=
  match user with
  | none => 2000
  | some u => jsOr u.goals.dailyCalories 2000

/-- `getAICoaching`: the mock coaching response.  The text fields are
hardcoded; the goal-progress entries are computed from the supplied
nutrition figures and the (defaulted) user targets. -/
def getAICoaching (user : Option User) (nutritionData : NutritionData) :
    CoachingResponse :=
  { message := "Great choice with the grilled chicken! You're getting excellent protein to support your fitness goals."
  , suggestions :=
      [ "Add some vegetables for fiber and micronutrients"
      , "Consider a small portion of complex carbs for sustained energy"
      , "You're on track to meet your daily protein goal!" ]
  , goalProgress :=
      { protein :=
          { current := nutritionData.macros.protein
          , target := proteinTargetOf user
          , percentage :=
              nutritionData.macros.protein / proteinTargetOf user * 100 }
      , calories :=
          { current := nutritionData.totalCalories
          , target := caloriesTargetOf user
          , percentage :=
              nutritionData.totalCalories / caloriesTargetOf user * 100 } }
  , encouragement := "You're building healthy habits! Keep up the great work! 💪" }

/-- The goal types accepted by `completeGoal`. -/
inductive GoalType where
  | protein
  | calories
deriving DecidableEq, Repr

/-- `completeGoal`: ignores its goal type and value, adds the base
`vpEarned = 50` to both `earned` and `total` via the functional
`setVitalityPoints` update, and resolves to `true`. -/
def completeGoal (_goalType : GoalType) (_value : ℚ)
    (vp : VitalityPoints) : Bool × VitalityPoints :=
  let vpEarned : ℚ := 50
  ( true
  , { vp with earned := vp.earned + vpEarned, total := vp.total + vpEarned } )

/-! ## API route handlers -/

/-- An HTTP response: status code and a flat JSON object body. -/
structure ApiResponse where
  status : Nat
  body : List (String × String)
deriving DecidableEq, Repr

/-- The fixed body of the webhook route's health-check `GET`
(`NextResponse.json` defaults to status 200). -/
def webhookGETResponse : ApiResponse :=
  { status := 200
  , body := [("status", "active"), ("service", "FitAgent Webhook Handler")] }

/-- The fixed body of the frame route's health-check `GET`. -/
def frameGETResponse : ApiResponse :=
  { status := 200
  , body := [("message", "FitAgent Frame API"), ("version", "1.0.0")] }

/-- The webhook `GET` handler in state-passing form.  The handler reads
no request data and touches no state of any kind, which the polymorphic
state type makes explicit. -/
def webhookGETHandler {σ : Type} (s : σ) : ApiResponse × σ :=
  (webhookGETResponse, s)

/-- The frame `GET` handler in state-passing form. -/
def frameGETHandler {σ : Type} (s : σ) : ApiResponse × σ :=
  (frameGETResponse, s)

/-- Repeats a handler `n` times, collecting the responses. -/
def iterateHandler {σ : Type} (h : σ → ApiResponse × σ) :
    Nat → σ → List ApiResponse × σ
  | 0, s => ([], s)
  | n + 1, s =>
    let r := h s
    let rest := iterateHandler h n r.2
    (r.1 :: rest.1, rest.2)

/-! ## Spec-side definitions and concrete inputs used by the theorems -/

/-- The claim's "dailyProtein target": the user's stored daily-protein
goal, defaulting to 150 when no user is loaded (spec wording). -/
def claimedProteinTarget (user : Option User) : ℚ :=
  match user with
  | none => 150
  | some u => u.goals.dailyProtein

/-- The claim's "dailyCalories target", defaulting to 2000 when no user
is loaded (spec wording). -/
def claimedCaloriesTarget (user : Option User) : ℚ :=
  match user with
  | none => 2000
  | some u => u.goals.dailyCalories

/-- A filled form whose carbs value is negative while every field the
code checks is valid. -/
def negativeCarbsEntry : ManualNutritionData :=
  { foodName := "Apple"
  , servingSize := "1 piece"
  , calories := 52
  , protein := 1
  , carbs := -14
  , fats := 0
  , confidence := 1 }

/-- A nutrition record with zero protein, used to vary the coaching
response. -/
def ndZeroProtein : NutritionData :=
  { foodItems := []
  , totalCalories := 0
  , macros := { protein := 0, carbs := 0, fats := 0, fiber := 0 }
  , micros := { vitamins := [], minerals := [] }
  , confidence := 0 }

/-- A nutrition record with high protein, used to vary the coaching
response. -/
def ndHighProtein : NutritionData :=
  { foodItems := []
  , totalCalories := 500
  , macros := { protein := 100, carbs := 0, fats := 0, fiber := 0 }
  , micros := { vitamins := [], minerals := [] }
  , confidence := 0 }

/-- A concrete loaded user for witnesses. -/
def loadedUser : User :=
  mockUser "0xabcdef1234567890" 1700000000000

/-- A concrete captured image for witnesses. -/
def sampleImage : CapturedImage :=
  { id := "1"
  , file := { name := "meal-1.jpg", mimeType := "image/jpeg", data := [1, 2] }
  , url := "blob:meal-1"
  , type := ImageType.food
  , processing := false }

/-- A capture session holding exactly `sampleImage`. -/
def sampleCaptureState : CaptureState :=
  { initialCaptureState with capturedImages := [sampleImage] }

/-- A concrete accepted (image-typed) file-picker entry for witnesses. -/
def sampleUploadEntry : UploadEntry :=
  { file := { name := "snack.png", mimeType := "image/png", data := [3] }
  , id := "2"
  , url := "blob:snack-2" }

/-- Initial form data for the confidence witness; its stored confidence
of one half is ignored by the component. -/
def halfConfidenceInitialData : PartialManualNutritionData :=
  { foodName := some "Oats"
  , servingSize := some "1 cup"
  , calories := none
  , protein := none
  , carbs := none
  , fats := none
  , confidence := some (1 / 2) }

/-! ## Helper lemmas -/

/-- Iterating a handler that returns a fixed response and its state
unchanged yields that response on every call and the original state. -/
lemma iterateHandler_const {σ : Type} (r : ApiResponse) (n : Nat) (s : σ) :
    iterateHandler (fun s => (r, s)) n s = (List.replicate n r, s) := by
  induction n generalizing s with
  | zero => rfl
  | succ n ih => simp [iterateHandler, ih, List.replicate]

/-- No user-initiated operation of the capture component writes the
`error` state. -/
lemma stepOp_error (op : CaptureOp) (st : CaptureState) :
    (stepOp op st).error = st.error := by
  cases op with
  | capture blobResult ts url => cases blobResult <;> rfl
  | upload entries => rfl
  | remove id => rfl
  | selectType t => rfl
  | toggleTypeSelector => rfl
  | complete => rfl

/-- No user-initiated operation of the capture component writes the
`stream` state; only the mount-time `initCamera` does. -/
lemma stepOp_stream (op : CaptureOp) (st : CaptureState) :
    (stepOp op st).stream = st.stream := by
  cases op with
  | capture blobResult ts url => cases blobResult <;> rfl
  | upload entries => rfl
  | remove id => rfl
  | selectType t => rfl
  | toggleTypeSelector => rfl
  | complete => rfl

/-- `error` is invariant under every sequence of user operations. -/
lemma applyOps_error (ops : List CaptureOp) (st : CaptureState) :
    (applyOps ops st).error = st.error := by
  induction ops generalizing st with
  | nil => rfl
  | cons op t ih =>
    show (applyOps t (stepOp op st)).error = st.error
    rw [ih, stepOp_error]

/-- `stream` is invariant under every sequence of user operations. -/
lemma applyOps_stream (ops : List CaptureOp) (st : CaptureState) :
    (applyOps ops st).stream = st.stream := by
  induction ops generalizing st with
  | nil => rfl
  | cons op t ih =>
    show (applyOps t (stepOp op st)).stream = st.stream
    rw [ih, stepOp_stream]

/-- Splitting a list's length by an id test. -/
lemma length_filter_id_split (l : List CapturedImage) (id : String) :
    (l.filter (fun img => img.id != id)).length
      + (l.filter (fun img => img.id == id)).length = l.length := by
  induction l with
  | nil => rfl
  | cons a t ih =>
    by_cases h : a.id = id
    · simp [List.filter_cons, h]
      omega
    · simp [List.filter_cons, h]
      omega

/-- `applyEdit` never writes the `confidence` field. -/
lemma applyEdit_confidence (e : FormEdit) (fd : ManualNutritionData) :
    (applyEdit e fd).confidence = fd.confidence := by
  cases e <;> rfl

/-- Folding any sequence of edits preserves the `confidence` field. -/
lemma foldl_edits_confidence (edits : List FormEdit)
    (fd : ManualNutritionData) :
    (edits.foldl (fun acc e => applyEdit e acc) fd).confidence
      = fd.confidence := by
  induction edits generalizing fd with
  | nil => rfl
  | cons e es ih =>
    show (es.foldl (fun acc e => applyEdit e acc) (applyEdit e fd)).confidence
        = fd.confidence
    rw [ih, applyEdit_confidence]

/-- The form passes validation exactly when the trimmed food name and
serving size are non-empty and protein and calories are non-negative. -/
lemma validateFormOk_iff (fd : ManualNutritionData) :
    validateFormOk fd = true ↔
      (jsTrim fd.foodName ≠ "" ∧ jsTrim fd.servingSize ≠ ""
        ∧ 0 ≤ fd.protein ∧ 0 ≤ fd.calories) := by
  unfold validateFormOk validateForm
  split_ifs with h1 h2 h3 h4 <;>
    simp_all [List.isEmpty_iff, not_lt, le_of_lt]

/-! ## Claim theorems -/

/-- C1 (counterexample): a form whose carbs value is negative, but whose
food name, serving size, protein and calories are valid, is submitted —
`handleSubmit` invokes the callback with it and records no field error —
refuting the claim that submission requires all four macro values to be
non-negative. -/
theorem manual_entry_validation_counterexample :
    handleSubmit negativeCarbsEntry = some negativeCarbsEntry
    ∧ negativeCarbsEntry.carbs < 0
    ∧ validateForm negativeCarbsEntry = [] := by
  refine ⟨?_, by norm_num [negativeCarbsEntry], ?_⟩ <;> decide

/-- C1 (amended): `handleSubmit` invokes the `onSubmit` callback if and
only if the trimmed food name and trimmed serving size are non-empty and
protein and calories are non-negative; carbs and fats are not validated.
A field-level error is recorded for each failing checked field. -/
theorem manual_entry_validation (fd : ManualNutritionData) :
    (handleSubmit fd = some fd ↔
      (jsTrim fd.foodName ≠ "" ∧ jsTrim fd.servingSize ≠ ""
        ∧ 0 ≤ fd.protein ∧ 0 ≤ fd.calories))
    ∧ (jsTrim fd.foodName = "" →
        ("foodName", "Food name is required") ∈ validateForm fd)
    ∧ (jsTrim fd.servingSize = "" →
        ("servingSize", "Serving size is required") ∈ validateForm fd)
    ∧ (fd.protein < 0 →
        ("protein", "Protein cannot be negative") ∈ validateForm fd)
    ∧ (fd.calories < 0 →
        ("calories", "Calories cannot be negative") ∈ validateForm fd) := by
  refine ⟨?_, ?_, ?_, ?_, ?_⟩
  · constructor
    · intro h
      by_cases hv : validateFormOk fd
      · exact (validateFormOk_iff fd).mp hv
      · simp [handleSubmit, hv] at h
    · intro h
      simp [handleSubmit, (validateFormOk_iff fd).mpr h]
  · intro h
    simp [validateForm, h]
  · intro h
    simp [validateForm, h]
  · intro h
    simp [validateForm, h]
  · intro h
    simp [validateForm, h]

/-- C1 (witness): at a concrete empty-name form the error is recorded,
and a concrete fully valid form is submitted. -/
theorem manual_entry_validation_witness :
    jsTrim (initialFormData emptyInitialData).foodName = ""
    ∧ ("foodName", "Food name is required")
        ∈ validateForm (initialFormData emptyInitialData)
    ∧ (handleSubmit negativeCarbsEntry = some negativeCarbsEntry ↔
        (jsTrim negativeCarbsEntry.foodName ≠ ""
          ∧ jsTrim negativeCarbsEntry.servingSize ≠ ""
          ∧ 0 ≤ negativeCarbsEntry.protein
          ∧ 0 ≤ negativeCarbsEntry.calories)) :=
  ⟨by decide
  , (manual_entry_validation (initialFormData emptyInitialData)).2.1 (by decide)
  , (manual_entry_validation negativeCarbsEntry).1⟩

/-- C9: `completeGoal` resolves to `true` and adds exactly 50 to both
`earned` and `total`, leaving `pending` and `streakMultiplier`
unchanged, for every goal type and value. -/
theorem completeGoal_awards_fifty (gt : GoalType) (v : ℚ)
    (vp : VitalityPoints) :
    (completeGoal gt v vp).1 = true
    ∧ (completeGoal gt v vp).2.earned = vp.earned + 50
    ∧ (completeGoal gt v vp).2.total = vp.total + 50
    ∧ (completeGoal gt v vp).2.pending = vp.pending
    ∧ (completeGoal gt v vp).2.streakMultiplier = vp.streakMultiplier := by
  simp [completeGoal]

/-- C4 (counterexample): `getAICoaching` does not resolve to a fixed
payload — two different nutrition inputs yield different responses, so
not every one of the three mock operations is input-independent. -/
theorem coaching_payload_varies :
    getAICoaching none ndZeroProtein ≠ getAICoaching none ndHighProtein := by
  intro h
  have h2 := congrArg (fun r => r.goalProgress.protein.current) h
  norm_num [getAICoaching, ndZeroProtein, ndHighProtein] at h2

/-- C4 (amended): `analyzePhoto` resolves to the identical hardcoded
`NutritionData` for any two input files, and `completeGoal`'s result is
independent of its goal type and value; `getAICoaching` returns the
fixed hardcoded template — message, suggestions and encouragement are
input-independent — with only its goal-progress figures computed from
the supplied nutrition data. -/
theorem mock_operations_fixed_payloads (f1 f2 : BrowserFile)
    (u : Option User) (nd1 nd2 : NutritionData) (gt1 gt2 : GoalType)
    (v1 v2 : ℚ) (vp : VitalityPoints) :
    analyzePhoto f1 = mockNutritionData
    ∧ analyzePhoto f1 = analyzePhoto f2
    ∧ (getAICoaching u nd1).message = (getAICoaching u nd2).message
    ∧ (getAICoaching u nd1).suggestions = (getAICoaching u nd2).suggestions
    ∧ (getAICoaching u nd1).encouragement
        = (getAICoaching u nd2).encouragement
    ∧ (completeGoal gt1 v1 vp).1 = true
    ∧ completeGoal gt1 v1 vp = completeGoal gt2 v2 vp :=
  ⟨rfl, rfl, rfl, rfl, rfl, rfl, rfl⟩

/-- C3: the coaching response's goal-progress percentages equal
`(current / target) * 100` for the supplied nutrition figures, where the
targets are the user's stored daily goals, defaulting to 150 g protein
and 2000 kcal when no user is loaded (the stored targets are assumed
non-zero; a zero stored target is falsy in JS and is likewise replaced
by the default, and the claim's formula is undefined there). -/
theorem coaching_goal_percentages (user : Option User)
    (nd : NutritionData)
    (hp : ∀ u, user = some u → u.goals.dailyProtein ≠ 0)
    (hc : ∀ u, user = some u → u.goals.dailyCalories ≠ 0) :
    (getAICoaching user nd).goalProgress.protein.percentage
        = nd.macros.protein / claimedProteinTarget user * 100
    ∧ (getAICoaching user nd).goalProgress.calories.percentage
        = nd.totalCalories / claimedCaloriesTarget user * 100
    ∧ (getAICoaching user nd).goalProgress.protein.current
        = nd.macros.protein
    ∧ (getAICoaching user nd).goalProgress.calories.current
        = nd.totalCalories
    ∧ claimedProteinTarget none = 150
    ∧ claimedCaloriesTarget none = 2000 := by
  cases user with
  | none =>
    simp [getAICoaching, proteinTargetOf, caloriesTargetOf,
      claimedProteinTarget, claimedCaloriesTarget]
  | some u =>
    have h1 := hp u rfl
    have h2 := hc u rfl
    simp [getAICoaching, proteinTargetOf, caloriesTargetOf,
      claimedProteinTarget, claimedCaloriesTarget, jsOr, h1, h2]

/-- C3 (witness): for the concrete loaded mock user and the mock
nutrition data, the hypotheses hold and the percentages are as claimed. -/
theorem coaching_goal_percentages_witness :
    loadedUser.goals.dailyProtein ≠ 0
    ∧ loadedUser.goals.dailyCalories ≠ 0
    ∧ (getAICoaching (some loadedUser) mockNutritionData).goalProgress.protein.percentage
        = mockNutritionData.macros.protein
          / claimedProteinTarget (some loadedUser) * 100
    ∧ (getAICoaching (some loadedUser) mockNutritionData).goalProgress.calories.percentage
        = mockNutritionData.totalCalories
          / claimedCaloriesTarget (some loadedUser) * 100 := by
  have hmain := coaching_goal_percentages (some loadedUser) mockNutritionData
    (fun u h => by cases h; norm_num [loadedUser, mockUser])
    (fun u h => by cases h; norm_num [loadedUser, mockUser])
  exact ⟨by norm_num [loadedUser, mockUser], by norm_num [loadedUser, mockUser],
    hmain.1, hmain.2.1⟩

/-- C7: every payload passed to `onSubmit` has confidence 1.0, for every
initial data and every sequence of field edits before submission: the
form initialises confidence to 1.0 (discarding any initial confidence)
and no input is wired to change it. -/
theorem manual_entry_confidence (init : PartialManualNutritionData)
    (edits : List FormEdit) (fd : ManualNutritionData)
    (h : handleSubmit (formAfterEdits init edits) = some fd) :
    fd.confidence = 1 := by
  have hfd : fd = formAfterEdits init edits := by
    by_cases hv : validateFormOk (formAfterEdits init edits)
    · simp [handleSubmit, hv] at h
      exact h.symm
    · simp [handleSubmit, hv] at h
  rw [hfd]
  show (edits.foldl (fun acc e => applyEdit e acc)
    (initialFormData init)).confidence = 1
  rw [foldl_edits_confidence]
  rfl

/-- C7 (witness): a concrete edited form — initial data carrying
confidence one half, then a protein edit — is submitted with
confidence 1. -/
theorem manual_entry_confidence_witness :
    handleSubmit (formAfterEdits halfConfidenceInitialData
        [FormEdit.setProtein 10])
      = some (formAfterEdits halfConfidenceInitialData
        [FormEdit.setProtein 10])
    ∧ (formAfterEdits halfConfidenceInitialData
        [FormEdit.setProtein 10]).confidence = 1 := by
  have h : handleSubmit (formAfterEdits halfConfidenceInitialData
      [FormEdit.setProtein 10])
      = some (formAfterEdits halfConfidenceInitialData
        [FormEdit.setProtein 10]) := by decide
  exact ⟨h, manual_entry_confidence halfConfidenceInitialData
    [FormEdit.setProtein 10] _ h⟩

/-- C2: a successful `capturePhoto` appends exactly one image, tagged
with the selected type, to the accumulated list; an accepted file
selection (a chosen file whose MIME type starts with `image/`) likewise
appends exactly one tagged image — and in general a selection appends
one image per accepted file; and `removeImage(id)` on a list containing
the image with that id (ids are unique: the filter for the id has length
one) decreases the count by exactly one and revokes exactly that image's
object URL. -/
theorem capture_appends_remove_releases :
    (∀ (blob : Blob) (ts : Nat) (url : String) (st : CaptureState),
      (capturePhoto (some blob) ts url st).capturedImages
          = st.capturedImages ++
            [{ id := toString ts
             , file := { name := capturedFileName ts
                       , mimeType := "image/jpeg"
                       , data := blob.data }
             , url := url
             , type := st.selectedType
             , processing := false }]
      ∧ (capturePhoto (some blob) ts url st).capturedImages.length
          = st.capturedImages.length + 1)
    ∧ (∀ (e : UploadEntry) (st : CaptureState),
      isImageFile e.file = true →
      (handleFileUpload [e] st).capturedImages
          = st.capturedImages ++
            [{ id := e.id
             , file := e.file
             , url := e.url
             , type := st.selectedType
             , processing := false }]
      ∧ (handleFileUpload [e] st).capturedImages.length
          = st.capturedImages.length + 1)
    ∧ (∀ (entries : List UploadEntry) (st : CaptureState),
      (handleFileUpload entries st).capturedImages.length
          = st.capturedImages.length
            + (entries.filter (fun e => isImageFile e.file)).length)
    ∧ (∀ (id : String) (st : CaptureState),
      (st.capturedImages.filter (fun img => img.id == id)).length = 1 →
      (removeImage id st).capturedImages.length + 1
          = st.capturedImages.length
      ∧ ∃ img, img ∈ st.capturedImages ∧ img.id = id
          ∧ (removeImage id st).revokedUrls = st.revokedUrls ++ [img.url]) := by
  refine ⟨?_, ?_, ?_, ?_⟩
  · intro blob ts url st
    refine ⟨rfl, ?_⟩
    simp [capturePhoto]
  · intro e st h
    constructor
    · simp [handleFileUpload, List.filter_cons, h]
    · simp [handleFileUpload, List.filter_cons, h]
  · intro entries st
    simp [handleFileUpload]
  · intro id st h
    have hlen := length_filter_id_split st.capturedImages id
    have hne : st.capturedImages.filter (fun img => img.id == id) ≠ [] := by
      intro hnil
      rw [hnil] at h
      simp at h
    obtain ⟨x, hx⟩ := List.exists_mem_of_ne_nil _ hne
    have hx' := List.mem_filter.mp hx
    constructor
    · show (st.capturedImages.filter (fun img => img.id != id)).length + 1
          = st.capturedImages.length
      omega
    · cases hfind : st.capturedImages.find? (fun img => img.id == id) with
      | none =>
        exact absurd hx'.2 (List.find?_eq_none.mp hfind x hx'.1)
      | some img =>
        have hbeq := List.find?_some hfind
        refine ⟨img, List.mem_of_find?_eq_some hfind, eq_of_beq hbeq, ?_⟩
        simp [removeImage, hfind]

/-- C2 (witness): selecting a concrete accepted image file appends
exactly one image, and removing the single image of a concrete one-image
session decreases the count from one to zero and revokes its URL. -/
theorem capture_appends_remove_releases_witness :
    isImageFile sampleUploadEntry.file = true
    ∧ (handleFileUpload [sampleUploadEntry]
          sampleCaptureState).capturedImages.length
        = sampleCaptureState.capturedImages.length + 1
    ∧ (sampleCaptureState.capturedImages.filter
        (fun img => img.id == "1")).length = 1
    ∧ ((removeImage "1" sampleCaptureState).capturedImages.length + 1
          = sampleCaptureState.capturedImages.length
      ∧ ∃ img, img ∈ sampleCaptureState.capturedImages ∧ img.id = "1"
          ∧ (removeImage "1" sampleCaptureState).revokedUrls
              = sampleCaptureState.revokedUrls ++ [img.url]) := by
  have himg : isImageFile sampleUploadEntry.file = true := by decide
  have h : (sampleCaptureState.capturedImages.filter
      (fun img => img.id == "1")).length = 1 := by decide
  exact ⟨himg,
    (capture_appends_remove_releases.2.1 sampleUploadEntry
      sampleCaptureState himg).2,
    h, capture_appends_remove_releases.2.2.2 "1" sampleCaptureState h⟩

/-- C10: `handleFileUpload` appends exactly the files whose MIME type
starts with `image/`, in selection order, each tagged with the currently
selected type; other files are ignored, and the file input's value is
reset to the empty string afterwards. -/
theorem file_upload_filters_images (entries : List UploadEntry)
    (st : CaptureState) :
    (handleFileUpload entries st).capturedImages.map (fun img => img.file)
      = st.capturedImages.map (fun img => img.file)
        ++ (entries.map (fun e => e.file)).filter isImageFile
    ∧ (handleFileUpload entries st).capturedImages.length
      = st.capturedImages.length
        + (entries.filter (fun e => isImageFile e.file)).length
    ∧ ((handleFileUpload entries st).capturedImages.drop
        st.capturedImages.length).all
          (fun img => img.type == st.selectedType) = true
    ∧ (handleFileUpload entries st).fileInputValue = "" := by
  refine ⟨?_, ?_, ?_, rfl⟩
  · simp only [handleFileUpload, List.map_append, List.map_map]
    congr 1
    induction entries with
    | nil => rfl
    | cons a l ih =>
      by_cases h : isImageFile a.file
      · simp [List.filter_cons, h, Function.comp]
        exact ih
      · simp [List.filter_cons, h, Function.comp]
        exact ih
  · simp [handleFileUpload]
  · simp only [handleFileUpload, List.drop_left]
    simp [List.all_eq_true]
    intro img e hmem himg heq
    rw [← heq]

/-- C5: `handleComplete` passes the full captured-file list, in capture
order, to `onPhotosCapture` and revokes every image's object URL — but
the acquired camera stream's tracks are never stopped: `handleComplete`
does not touch the stream, and the unmount cleanup's closure holds the
first-render `stream` value (`null`), so even after the stream was
acquired, teardown stops no track (the last conjunct shows what the
cleanup would have stopped had it seen the acquired stream). -/
theorem complete_hands_off_files_and_release (st : CaptureState)
    (ms : MediaStream) :
    (handleComplete st).1 = st.capturedImages.map (fun img => img.file)
    ∧ (handleComplete st).2.revokedUrls
        = st.revokedUrls ++ st.capturedImages.map (fun img => img.url)
    ∧ (sessionTeardown (handleComplete st).2).stoppedTrackIds
        = st.stoppedTrackIds
    ∧ (sessionTeardown
        (handleComplete (initCameraSuccess ms st)).2).stoppedTrackIds
        = st.stoppedTrackIds
    ∧ (effectCleanup (some ms) st).stoppedTrackIds
        = st.stoppedTrackIds ++ ms.tracks := by
  refine ⟨rfl, rfl, rfl, rfl, rfl⟩

/-- C6: after a camera-permission failure on mount the component is in
the error state, and that state is terminal for the session: no sequence
of user operations clears the error or changes the stream (the mount
effect never re-runs, so `getUserMedia` is never re-attempted), while
the file-selection fallback keeps working — an upload still appends
exactly the image-typed files. -/
theorem camera_failure_terminal (st : CaptureState)
    (ops : List CaptureOp) (entries : List UploadEntry) :
    (initCameraFail st).error = some cameraErrorMsg
    ∧ (applyOps ops (initCameraFail st)).error = some cameraErrorMsg
    ∧ (applyOps ops (initCameraFail st)).stream = st.stream
    ∧ (stepOp (CaptureOp.upload entries)
        (applyOps ops (initCameraFail st))).capturedImages.length
        = (applyOps ops (initCameraFail st)).capturedImages.length
          + (entries.filter (fun e => isImageFile e.file)).length := by
  refine ⟨rfl, ?_, ?_, ?_⟩
  · rw [applyOps_error]
    rfl
  · rw [applyOps_stream]
    rfl
  · simp [stepOp, handleFileUpload]

/-- C8: the health-check `GET` handlers of the webhook and frame routes
return a success status with the same fixed JSON body on every one of
`n` repeated calls and leave the (arbitrary) program state unchanged. -/
theorem health_check_gets_idempotent {σ : Type} (n : Nat) (s : σ) :
    (iterateHandler webhookGETHandler n s).2 = s
    ∧ (iterateHandler webhookGETHandler n s).1
        = List.replicate n webhookGETResponse
    ∧ (iterateHandler frameGETHandler n s).2 = s
    ∧ (iterateHandler frameGETHandler n s).1
        = List.replicate n frameGETResponse
    ∧ webhookGETResponse.status = 200
    ∧ frameGETResponse.status = 200 := by
  have hw := iterateHandler_const (σ := σ) webhookGETResponse n s
  have hf := iterateHandler_const (σ := σ) frameGETResponse n s
  exact ⟨congrArg Prod.snd hw, congrArg Prod.fst hw,
    congrArg Prod.snd hf, congrArg Prod.fst hf, rfl, rfl⟩
